import Mathlib

/-
  Verification of the KeyNet event-dispatch core (src/keynet/main.py)
  against its natural-language specification.

  The Python class `KeyNet` is shallowly embedded below:
  * the listener registry `self.listeners` (a dict with ten fixed string
    keys, each mapping to a list of `(callback, kwargs)` pairs) becomes an
    association list from `String` to `List Subscription`;
  * callbacks are modelled by an identity (`cb : Nat`) plus a flag
    (`raises : Bool`) saying whether invoking the callback raises on the
    invocation under consideration; an invocation is observed as an `Event`;
  * the `kwargs` mapping is restricted to the two keys the code ever reads
    (`combo` and `threshold`), each optional;
  * the pressed-key set `self.current_keys` becomes a `Finset String`;
  * the polling thread body `monitor()` becomes a fold over a list of
    per-iteration raw samples; a failed or unavailable external query is a
    `none` sample (psutil raising and `sensors_battery()` returning `None`
    are observationally identical in the loop: no dispatch, no state
    update, loop continues);
  * battery percent and volume percent are modelled as `Int`.
-/

set_option maxHeartbeats 1000000

namespace KeyNet

/-- Parameter mapping of a registration (`**kwargs` in `KeyNet.on`).
Only the two keys the code reads are modelled: `params.get("combo", [])`
(main.py line 69) and `params.get("threshold", 50)` (line 140). -/
structure Params where
  combo : Option (List String)
  threshold : Option Int
deriving DecidableEq, Repr

/-- One registered `(callback, kwargs)` pair. `cb` is the callback's
identity; `raises` says whether calling it raises an exception. -/
structure Subscription where
  cb : Nat
  raises : Bool
  params : Params
deriving DecidableEq, Repr

/-- The combo list a subscription carries: `params.get("combo", [])`. -/
def comboOf (s : Subscription) : List String :=
  s.params.combo.getD []

/-- Observable callback invocations, one constructor per dispatch site. -/
inductive Event
  | keyPress (cb : Nat) (k : String)
  | keyRelease (cb : Nat) (k : String)
  | keyCombo (cb : Nat) (combo : List String)
  | batteryEv (cb : Nat) (percent : Int) (plugged : Bool)
  | networkEv (cb : Nat) (connected : Bool)
  | volThreshold (cb : Nat) (vol : Int)
  | volMute (cb : Nat) (muted : Bool)
deriving DecidableEq, Repr

/-- The registry `self.listeners`: a dict from category string to the
ordered list of subscriptions (main.py lines 22-33). -/
abbrev Listeners := List (String × List Subscription)

/-- The ten category keys installed by `__init__` (main.py lines 22-33). -/
def eventTypes : List String :=
  ["key_press", "key_release", "key_combo", "mouse_click", "mouse_move",
   "mouse_scroll", "volume_threshold", "volume_mute", "battery", "network"]

/-- The registry as `__init__` builds it: the ten keys, each with an empty
list. -/
def initListeners : Listeners :=
  [("key_press", []), ("key_release", []), ("key_combo", []),
   ("mouse_click", []), ("mouse_move", []), ("mouse_scroll", []),
   ("volume_threshold", []), ("volume_mute", []), ("battery", []),
   ("network", [])]

/-- Reading `self.listeners[c]` for a category string `c`: the entry with
key `c` (dict keys are unique in the source; a missing key cannot occur on
the code paths modelled, and is mapped to `[]`). -/
def getCat : Listeners → String → List Subscription
  | [], _ => []
  | (k, v) :: rest, c => if c = k then v else getCat rest c

/-- `KeyNet.on` (main.py lines 50-53), the spec's `register`: raise
`ValueError` when the category string is not a key of the dict, otherwise
append the subscription to that category's list. (`on` is a reserved
token in this Lean environment, so the spec's name is used.) -/
def register (ls : Listeners) (eventType : String) (s : Subscription) :
    Except String Listeners :=
  if eventType ∈ ls.map Prod.fst then
    Except.ok (ls.map (fun p =>
      if p.1 = eventType then (p.1, p.2 ++ [s]) else p))
  else
    Except.error ("Unknown event type: " ++ eventType)

/-- Dispatch a list of callbacks in registration order, as a plain Python
`for cb, _ in listeners[...]: cb(...)` loop with no per-callback handler:
the first raising callback ends the loop. Returns the invocation events
(the raiser included, since it was called) and whether a raise escaped. -/
def runCbs (subs : List Subscription) (mk : Subscription → Event) :
    List Event × Bool :=
  match subs with
  | [] => ([], false)
  | s :: rest =>
    if s.raises then ([mk s], true)
    else
      let r := runCbs rest mk
      (mk s :: r.1, r.2)

/-- The prefix of a subscription list that actually gets invoked by a bare
dispatch loop: everything up to and including the first raiser. -/
def upToRaise : List Subscription → List Subscription
  | [] => []
  | s :: rest => if s.raises then [s] else s :: upToRaise rest

/-- The combo guard of `on_press` (main.py line 70):
`if combo and self._check_combo(combo)`, where `_check_combo` (lines 55-57)
tests `set(combo).issubset(self.current_keys)`. -/
def comboFires (keys : Finset String) (s : Subscription) : Bool :=
  !(comboOf s).isEmpty && decide ((comboOf s).toFinset ⊆ keys)

/-- The `key_combo` dispatch loop of `on_press` (main.py lines 68-71). -/
def comboLoop (subs : List Subscription) (keys : Finset String) :
    List Event × Bool :=
  match subs with
  | [] => ([], false)
  | s :: rest =>
    if comboFires keys s then
      if s.raises then ([Event.keyCombo s.cb (comboOf s)], true)
      else
        let r := comboLoop rest keys
        (Event.keyCombo s.cb (comboOf s) :: r.1, r.2)
    else comboLoop rest keys

/-- `on_press` (main.py lines 62-71): add the token to the pressed set,
dispatch `key_press`, then run the combo loop against the updated set.
A raise in the `key_press` loop skips the combo loop (no handler).
Returns (new pressed set, events, whether a raise escaped the handler). -/
def onPress (ls : Listeners) (keys : Finset String) (keyStr : String) :
    Finset String × List Event × Bool :=
  let keys2 := insert keyStr keys
  let r1 := runCbs (getCat ls "key_press") (fun s => Event.keyPress s.cb keyStr)
  if r1.2 then (keys2, r1.1, true)
  else
    let r2 := comboLoop (getCat ls "key_combo") keys2
    (keys2, r1.1 ++ r2.1, r2.2)

/-- `on_release` (main.py lines 73-78): `set.discard` the token (total,
never raises) and dispatch `key_release`. -/
def onRelease (ls : Listeners) (keys : Finset String) (keyStr : String) :
    Finset String × List Event × Bool :=
  let r := runCbs (getCat ls "key_release") (fun s => Event.keyRelease s.cb keyStr)
  (keys.erase keyStr, r.1, r.2)

/-- Result of one per-signal block of the monitor loop: the new stored
last value, the dispatched events, and whether the external query ran. -/
structure BlockResult (α : Type) where
  last : α
  events : List Event
  sampled : Bool
deriving DecidableEq, Repr

/-- The battery block of one monitor iteration (main.py lines 112-120):
skip entirely when no listener; otherwise query `psutil.sensors_battery()`
(`none` = unavailable or the query raised), and when the `(percent,
plugged)` pair differs from `last_battery`, store it and dispatch. The
whole block sits in one `try/except`, so a raising callback ends the
dispatch loop but is caught at the block boundary; `last_battery` was
already updated before the loop. -/
def batteryBlock (subs : List Subscription) (smp : Option (Int × Bool))
    (last : Option (Int × Bool)) : BlockResult (Option (Int × Bool)) :=
  if subs.isEmpty then ⟨last, [], false⟩
  else
    match smp with
    | none => ⟨last, [], true⟩
    | some v =>
      if last = some v then ⟨last, [], true⟩
      else ⟨some v, (runCbs subs (fun s => Event.batteryEv s.cb v.1 v.2)).1, true⟩

/-- The network block (main.py lines 123-132): classify the per-interface
flags with `any`, compare to `last_net`, store and dispatch on change. -/
def networkBlock (subs : List Subscription) (smp : Option (List Bool))
    (last : Option Bool) : BlockResult (Option Bool) :=
  if subs.isEmpty then ⟨last, [], false⟩
  else
    match smp with
    | none => ⟨last, [], true⟩
    | some ifaces =>
      let connected := ifaces.any id
      if last = some connected then ⟨last, [], true⟩
      else ⟨some connected, (runCbs subs (fun s => Event.networkEv s.cb connected)).1, true⟩

/-- The `volume_threshold` dispatch loop (main.py lines 139-143): for each
listener in order, with that listener's own `threshold` (default 50),
compare `vol >= threshold` to the shared `last_vol_state`; when they
differ, overwrite the shared state and call the listener with the numeric
volume. A raising callback ends the loop (flag `true`). -/
def volThreshLoop (subs : List Subscription) (vol : Int) (last : Option Bool) :
    Option Bool × List Event × Bool :=
  match subs with
  | [] => (last, [], false)
  | s :: rest =>
    let b : Bool := decide (s.params.threshold.getD 50 ≤ vol)
    if last = some b then volThreshLoop rest vol last
    else if s.raises then (some b, [Event.volThreshold s.cb vol], true)
    else
      let r := volThreshLoop rest vol (some b)
      (r.1, Event.volThreshold s.cb vol :: r.2.1, r.2.2)

/-- Result of the volume block: the two stored last values, the events,
and whether `_get_system_volume()` was called. -/
structure VolBlockResult where
  lastVol : Option Bool
  lastMute : Option Bool
  events : List Event
  sampled : Bool
deriving DecidableEq, Repr

/-- The volume block (main.py lines 135-149): guarded by
`if listeners["volume_threshold"] or listeners["volume_mute"]`; one
`_get_system_volume()` query yields `(vol, muted)`, each possibly `None`;
the threshold loop runs when `vol` is available, then the mute edge check
when `muted` is available. Both sit in one `try/except`, so a raise in
the threshold loop also skips the mute part of that cycle. -/
def volumeBlock (ts ms : List Subscription) (volOpt : Option Int)
    (mutedOpt : Option Bool) (lastVol lastMute : Option Bool) : VolBlockResult :=
  if ts.isEmpty && ms.isEmpty then ⟨lastVol, lastMute, [], false⟩
  else
    let tr :=
      match volOpt with
      | none => (lastVol, [], false)
      | some v => volThreshLoop ts v lastVol
    if tr.2.2 then ⟨tr.1, lastMute, tr.2.1, true⟩
    else
      match mutedOpt with
      | none => ⟨tr.1, lastMute, tr.2.1, true⟩
      | some m =>
        if lastMute = some m then ⟨tr.1, lastMute, tr.2.1, true⟩
        else ⟨tr.1, some m, tr.2.1 ++ (runCbs ms (fun s => Event.volMute s.cb m)).1, true⟩

/-- The four `last_*` locals of `monitor()` (main.py lines 106-109). -/
structure SignalState where
  lastBattery : Option (Int × Bool)
  lastNet : Option Bool
  lastVolState : Option Bool
  lastMuteState : Option Bool
deriving DecidableEq, Repr

/-- The sentinel state the locals start in: all `None`. -/
def initSignalState : SignalState := ⟨none, none, none, none⟩

/-- The raw external samples available to one monitor iteration; `none`
means the query failed or the value is unavailable. -/
structure Sample where
  batt : Option (Int × Bool)
  netIfaces : Option (List Bool)
  vol : Option Int
  muted : Option Bool
deriving DecidableEq, Repr

/-- A cycle on which every external query fails. -/
def failedSample : Sample := ⟨none, none, none, none⟩

/-- Result of one iteration of the `while self.running` loop. -/
structure IterResult where
  state : SignalState
  events : List Event
  battSampled : Bool
  netSampled : Bool
  volSampled : Bool
deriving DecidableEq, Repr

/-- One iteration of the monitor loop (main.py lines 110-150): the battery
block, then the network block, then the volume block, each reading its
listener list from the registry. -/
def monitorIter (ls : Listeners) (st : SignalState) (smp : Sample) : IterResult :=
  let b := batteryBlock (getCat ls "battery") smp.batt st.lastBattery
  let n := networkBlock (getCat ls "network") smp.netIfaces st.lastNet
  let v := volumeBlock (getCat ls "volume_threshold") (getCat ls "volume_mute")
             smp.vol smp.muted st.lastVolState st.lastMuteState
  ⟨⟨b.last, n.last, v.lastVol, v.lastMute⟩,
   b.events ++ n.events ++ v.events, b.sampled, n.sampled, v.sampled⟩

/-- The `while self.running` loop, driven by the list of per-iteration
samples; returns the final local state and the per-iteration event lists. -/
def monitorLoop (ls : Listeners) : SignalState → List Sample →
    SignalState × List (List Event)
  | st, [] => (st, [])
  | st, smp :: rest =>
    let r := monitorIter ls st smp
    let rec2 := monitorLoop ls r.state rest
    (rec2.1, r.events :: rec2.2)

/-- One run of the thread body `monitor()` (main.py lines 102-153), as
spawned by `_start_system_monitors` from `start()`: the `last_*` locals
are initialized to `None` at the top of `monitor()`, so every run begins
at `initSignalState`. -/
def monitorRun (ls : Listeners) (samples : List Sample) :
    SignalState × List (List Event) :=
  monitorLoop ls initSignalState samples

/-- A sequence of `start(); ...samples...; stop()` sessions. Each
`start()` (main.py lines 203-207) calls `_start_system_monitors`, which
spawns a fresh `monitor()` whose `last_*` locals are re-created; nothing
of the previous session's signal state survives on the instance. -/
def runSessions (ls : Listeners) (sessions : List (List Sample)) :
    List (List (List Event)) :=
  sessions.map (fun samples => (monitorRun ls samples).2)

/-- Spec-side rendering of claim C4's wording (spec 4.4): the crossed-
threshold boolean is computed from the first registered listener's
threshold only (default 50); on an edge, the state is overwritten once
and every `volume_threshold` callback receives the numeric volume.
Written from the claim's words, to be compared with `volThreshLoop`. -/
def specVolThreshStep (subs : List Subscription) (vol : Int)
    (last : Option Bool) : Option Bool × List Event :=
  match subs with
  | [] => (last, [])
  | s :: _ =>
    let b : Bool := decide (s.params.threshold.getD 50 ≤ vol)
    if last = some b then (last, [])
    else (some b, subs.map (fun s2 => Event.volThreshold s2.cb vol))

/-- True on `volThreshold` events only. -/
def isVolMuteEv : Event → Bool
  | Event.volMute _ _ => true
  | _ => false

/-- True when the event is a `volThreshold` dispatch carrying `v`. -/
def volPayloadIs (v : Int) : Event → Bool
  | Event.volThreshold _ w => decide (w = v)
  | _ => false

/-- A well-behaved (non-raising) subscription with no parameters. -/
def cbSub (c : Nat) : Subscription := ⟨c, false, ⟨none, none⟩⟩

/-- A non-raising subscription carrying a `threshold` parameter. -/
def threshSub (c : Nat) (t : Int) : Subscription := ⟨c, false, ⟨none, some t⟩⟩

/-- A subscription whose callback raises when invoked. -/
def raiseSub (c : Nat) : Subscription := ⟨c, true, ⟨none, none⟩⟩

/-- A non-raising subscription carrying a `combo` parameter. -/
def comboSub (c : Nat) (combo : List String) : Subscription :=
  ⟨c, false, ⟨some combo, none⟩⟩

/-- A registry with two `volume_threshold` listeners, thresholds 30
and 70. -/
def twoThresholdListeners : Listeners :=
  [("key_press", []), ("key_release", []), ("key_combo", []),
   ("mouse_click", []), ("mouse_move", []), ("mouse_scroll", []),
   ("volume_threshold", [threshSub 0 30, threshSub 1 70]),
   ("volume_mute", []), ("battery", []), ("network", [])]

/-- A registry with a single battery listener. -/
def oneBatteryListeners : Listeners :=
  [("key_press", []), ("key_release", []), ("key_combo", []),
   ("mouse_click", []), ("mouse_move", []), ("mouse_scroll", []),
   ("volume_threshold", []), ("volume_mute", []),
   ("battery", [cbSub 0]), ("network", [])]

/-- A registry with a single `volume_mute` listener and no
`volume_threshold` listener. -/
def muteOnlyListeners : Listeners :=
  [("key_press", []), ("key_release", []), ("key_combo", []),
   ("mouse_click", []), ("mouse_move", []), ("mouse_scroll", []),
   ("volume_threshold", []), ("volume_mute", [cbSub 0]),
   ("battery", []), ("network", [])]

/-- A registry with two `key_press` listeners, the first of which raises. -/
def raisingPressListeners : Listeners :=
  [("key_press", [raiseSub 0, cbSub 1]), ("key_release", []),
   ("key_combo", []), ("mouse_click", []), ("mouse_move", []),
   ("mouse_scroll", []), ("volume_threshold", []), ("volume_mute", []),
   ("battery", []), ("network", [])]

/-- A registry with one `key_combo` listener on `["ctrl", "c"]`. -/
def comboListeners : Listeners :=
  [("key_press", []), ("key_release", []),
   ("key_combo", [comboSub 0 ["ctrl", "c"]]), ("mouse_click", []),
   ("mouse_move", []), ("mouse_scroll", []), ("volume_threshold", []),
   ("volume_mute", []), ("battery", []), ("network", [])]

/-- A registry with one `key_release` listener. -/
def releaseListeners : Listeners :=
  [("key_press", []), ("key_release", [cbSub 0]), ("key_combo", []),
   ("mouse_click", []), ("mouse_move", []), ("mouse_scroll", []),
   ("volume_threshold", []), ("volume_mute", []), ("battery", []),
   ("network", [])]

/-- The all-`none` volume sample for iterations where only volume data
matters. -/
def volSample (v : Int) : Sample := ⟨none, none, some v, none⟩

/-- A battery-only sample. -/
def battSample (v : Int × Bool) : Sample := ⟨some v, none, none, none⟩

/-! ### Helper lemmas about the dispatch loops -/

theorem runCbs_eq (subs : List Subscription) (mk : Subscription → Event) :
    runCbs subs mk = ((upToRaise subs).map mk, subs.any (fun s => s.raises)) := by
  induction subs with
  | nil => rfl
  | cons s rest ih =>
    by_cases h : s.raises = true
    · simp [runCbs, upToRaise, h]
    · simp only [Bool.not_eq_true] at h
      simp [runCbs, upToRaise, h, ih]

theorem runCbs_noRaise (subs : List Subscription) (mk : Subscription → Event)
    (h : ∀ s ∈ subs, s.raises = false) :
    runCbs subs mk = (subs.map mk, false) := by
  induction subs with
  | nil => rfl
  | cons s rest ih =>
    have hs := h s (by simp)
    simp [runCbs, hs, ih (fun x hx => h x (by simp [hx]))]

theorem runCbs_ne_nil (subs : List Subscription) (mk : Subscription → Event)
    (h : subs ≠ []) : (runCbs subs mk).1 ≠ [] := by
  cases subs with
  | nil => exact absurd rfl h
  | cons s rest => by_cases hs : s.raises = true <;> simp [runCbs, hs]

theorem runCbs_all (subs : List Subscription) (mk : Subscription → Event)
    (p : Event → Bool) (hp : ∀ s, p (mk s) = true) :
    ((runCbs subs mk).1).all p = true := by
  induction subs with
  | nil => rfl
  | cons s rest ih =>
    by_cases hs : s.raises = true <;> simp [runCbs, hs, hp, ih]

theorem comboLoop_noRaise (subs : List Subscription) (keys : Finset String)
    (h : ∀ s ∈ subs, s.raises = false) :
    comboLoop subs keys
      = ((subs.filter (comboFires keys)).map
          (fun s => Event.keyCombo s.cb (comboOf s)), false) := by
  induction subs with
  | nil => rfl
  | cons s rest ih =>
    have hs := h s (by simp)
    have ih2 := ih (fun x hx => h x (by simp [hx]))
    by_cases hf : comboFires keys s = true <;>
      simp [comboLoop, hf, hs, ih2, List.filter_cons]

theorem onPress_fst (ls : Listeners) (keys : Finset String) (k : String) :
    (onPress ls keys k).1 = insert k keys := by
  by_cases hc : (runCbs (getCat ls "key_press") (fun s => Event.keyPress s.cb k)).2 = true <;>
    simp [onPress, hc]

/-! ### Helper lemmas about the registry update performed by `register` -/

theorem keys_update (ls : Listeners) (e : String) (s : Subscription) :
    (ls.map (fun p => if p.1 = e then (p.1, p.2 ++ [s]) else p)).map Prod.fst
      = ls.map Prod.fst := by
  induction ls with
  | nil => rfl
  | cons p rest ih => by_cases h : p.1 = e <;> simp [h, ih]

theorem getCat_update_eq (ls : Listeners) (e : String) (s : Subscription)
    (h : e ∈ ls.map Prod.fst) :
    getCat (ls.map (fun p => if p.1 = e then (p.1, p.2 ++ [s]) else p)) e
      = getCat ls e ++ [s] := by
  induction ls with
  | nil => simp at h
  | cons p rest ih =>
    obtain ⟨k, vl⟩ := p
    simp only [List.map_cons]
    by_cases hke : k = e
    · rw [if_pos hke]
      subst hke
      simp [getCat]
    · rw [if_neg hke]
      have h2 : e ∈ rest.map Prod.fst := by
        simp only [List.map_cons] at h
        rcases List.mem_cons.mp h with hh | hh
        · exact absurd hh.symm hke
        · exact hh
      have hek : ¬(e = k) := fun hh => hke hh.symm
      simp [getCat, hek, ih h2]

theorem getCat_update_ne (ls : Listeners) (e c : String) (s : Subscription)
    (h : c ≠ e) :
    getCat (ls.map (fun p => if p.1 = e then (p.1, p.2 ++ [s]) else p)) c
      = getCat ls c := by
  induction ls with
  | nil => rfl
  | cons p rest ih =>
    obtain ⟨k, vl⟩ := p
    simp only [List.map_cons]
    by_cases hk : k = e
    · rw [if_pos hk]
      have hck : ¬(c = k) := fun hh => h (hh.trans hk)
      simp [getCat, hck, ih]
    · rw [if_neg hk]
      by_cases hck : c = k <;> simp [getCat, hck, ih]

/-! ### Helper lemmas about the per-signal monitor blocks -/

theorem batteryBlock_none (subs : List Subscription) (last : Option (Int × Bool)) :
    (batteryBlock subs none last).last = last
    ∧ (batteryBlock subs none last).events = [] := by
  by_cases he : subs.isEmpty = true <;> simp [batteryBlock, he]

theorem batteryBlock_same (subs : List Subscription) (v : Int × Bool)
    (last : Option (Int × Bool)) (h : last = some v) :
    (batteryBlock subs (some v) last).events = [] := by
  by_cases he : subs.isEmpty = true <;> simp [batteryBlock, he, h]

theorem batteryBlock_no_double (subs : List Subscription) (v : Int × Bool)
    (last : Option (Int × Bool)) :
    (batteryBlock subs (some v) (batteryBlock subs (some v) last).last).events = [] := by
  by_cases he : subs.isEmpty = true
  · simp [batteryBlock, he]
  · by_cases h : last = some v <;> simp [batteryBlock, he, h]

theorem batteryBlock_first (subs : List Subscription) (v : Int × Bool)
    (h : subs ≠ []) : (batteryBlock subs (some v) none).events ≠ [] := by
  have he : subs.isEmpty = false := by simpa [List.isEmpty_iff] using h
  simpa [batteryBlock, he] using runCbs_ne_nil subs _ h

theorem batteryBlock_updates (subs : List Subscription) (v : Int × Bool)
    (last : Option (Int × Bool)) (h1 : subs ≠ []) (h2 : last ≠ some v) :
    (batteryBlock subs (some v) last).last = some v := by
  have he : subs.isEmpty = false := by simpa [List.isEmpty_iff] using h1
  simp [batteryBlock, he, h2]

theorem networkBlock_none (subs : List Subscription) (last : Option Bool) :
    (networkBlock subs none last).last = last
    ∧ (networkBlock subs none last).events = [] := by
  by_cases he : subs.isEmpty = true <;> simp [networkBlock, he]

theorem networkBlock_same (subs : List Subscription) (ifs : List Bool)
    (last : Option Bool) (h : last = some (ifs.any id)) :
    (networkBlock subs (some ifs) last).events = [] := by
  by_cases he : subs.isEmpty = true <;> simp [networkBlock, he, h]

theorem networkBlock_no_double (subs : List Subscription) (ifs : List Bool)
    (last : Option Bool) :
    (networkBlock subs (some ifs) (networkBlock subs (some ifs) last).last).events = [] := by
  by_cases he : subs.isEmpty = true
  · simp [networkBlock, he]
  · by_cases h : last = some (ifs.any id) <;> simp [networkBlock, he, h]

theorem networkBlock_first (subs : List Subscription) (ifs : List Bool)
    (h : subs ≠ []) : (networkBlock subs (some ifs) none).events ≠ [] := by
  have he : subs.isEmpty = false := by simpa [List.isEmpty_iff] using h
  simpa [networkBlock, he] using runCbs_ne_nil subs _ h

theorem volumeBlock_none (ts ms : List Subscription) (lv lm : Option Bool) :
    (volumeBlock ts ms none none lv lm).lastVol = lv
    ∧ (volumeBlock ts ms none none lv lm).lastMute = lm
    ∧ (volumeBlock ts ms none none lv lm).events = [] := by
  by_cases he : (ts.isEmpty && ms.isEmpty) = true <;> simp [volumeBlock, he]

theorem muteBlock_same (ms : List Subscription) (m : Bool) (lv lm : Option Bool)
    (h : lm = some m) :
    (volumeBlock [] ms none (some m) lv lm).events = [] := by
  by_cases he : ms.isEmpty = true <;> simp [volumeBlock, he, h]

theorem muteBlock_no_double (ms : List Subscription) (m : Bool)
    (lv lv2 lm : Option Bool) :
    (volumeBlock [] ms none (some m) lv2
      (volumeBlock [] ms none (some m) lv lm).lastMute).events = [] := by
  by_cases he : ms.isEmpty = true
  · simp [volumeBlock, he]
  · by_cases h : lm = some m <;> simp [volumeBlock, he, h]

theorem muteBlock_first (ms : List Subscription) (m : Bool) (lv : Option Bool)
    (h : ms ≠ []) : (volumeBlock [] ms none (some m) lv none).events ≠ [] := by
  have he : ms.isEmpty = false := by simpa [List.isEmpty_iff] using h
  simpa [volumeBlock, he] using runCbs_ne_nil ms (fun s => Event.volMute s.cb m) h

theorem volThreshLoop_single_same (s : Subscription) (vol : Int) (last : Option Bool)
    (h : last = some (decide (s.params.threshold.getD 50 ≤ vol))) :
    (volThreshLoop [s] vol last).2.1 = [] := by
  simp [volThreshLoop, h]

theorem volThreshLoop_single_no_double (s : Subscription) (vol : Int)
    (last : Option Bool) :
    (volThreshLoop [s] vol (volThreshLoop [s] vol last).1).2.1 = [] := by
  by_cases h : last = some (decide (s.params.threshold.getD 50 ≤ vol))
  · simp [volThreshLoop, h]
  · by_cases hr : s.raises = true <;> simp [volThreshLoop, h, hr]

theorem volThreshLoop_single_first (s : Subscription) (vol : Int) :
    (volThreshLoop [s] vol none).2.1 ≠ [] := by
  by_cases hr : s.raises = true <;> simp [volThreshLoop, hr]

theorem volThreshLoop_mem (subs : List Subscription) (vol : Int) (last : Option Bool) :
    ∀ e ∈ (volThreshLoop subs vol last).2.1, ∃ c, e = Event.volThreshold c vol := by
  induction subs generalizing last with
  | nil => intro e he; simp [volThreshLoop] at he
  | cons s rest ih =>
    intro e he
    by_cases h1 : last = some (decide (s.params.threshold.getD 50 ≤ vol))
    · exact ih last e (by simpa [volThreshLoop, h1] using he)
    · by_cases h2 : s.raises = true
      · simp [volThreshLoop, h1, h2] at he
        exact ⟨s.cb, he⟩
      · rcases (by simpa [volThreshLoop, h1, h2] using he :
            e = Event.volThreshold s.cb vol ∨ e ∈ (volThreshLoop rest vol _).2.1) with h | h
        · exact ⟨s.cb, h⟩
        · exact ih _ e h

theorem volThreshLoop_not_mute (subs : List Subscription) (vol : Int)
    (last : Option Bool) :
    ((volThreshLoop subs vol last).2.1).all (fun e => !isVolMuteEv e) = true := by
  rw [List.all_eq_true]
  intro e he
  obtain ⟨c, rfl⟩ := volThreshLoop_mem subs vol last e he
  rfl

theorem monitorIter_failed (ls : Listeners) (st : SignalState) :
    (monitorIter ls st failedSample).state = st
    ∧ (monitorIter ls st failedSample).events = [] := by
  have hb := batteryBlock_none (getCat ls "battery") st.lastBattery
  have hn := networkBlock_none (getCat ls "network") st.lastNet
  have hv := volumeBlock_none (getCat ls "volume_threshold")
    (getCat ls "volume_mute") st.lastVolState st.lastMuteState
  constructor
  · simp [monitorIter, failedSample, hb.1, hn.1, hv.1, hv.2.1]
  · simp [monitorIter, failedSample, hb.2, hn.2, hv.2.2]

/-! ### Claim theorems -/

/-- C1 (counterexample): with two `volume_threshold` listeners whose
thresholds are 30 and 70, a constant volume of 50 makes the monitor loop
dispatch to both listeners on **every** cycle: callback 0 fires on two
consecutive cycles although its classified value `50 >= 30` is unchanged
(the shared `last_vol_state` is clobbered by listener 1 in between). This
refutes "it never dispatches twice in a row with an unchanged classified
value" for the polled volume-threshold signal. -/
theorem c1_counterexample :
    (monitorRun twoThresholdListeners [volSample 50, volSample 50]).2
      = [[Event.volThreshold 0 50, Event.volThreshold 1 50],
         [Event.volThreshold 0 50, Event.volThreshold 1 50]] := by decide

/-- C1 (amended): for battery, network and mute, and for volume-threshold
with a **single** registered listener, the edge detectors dispatch only
when the classified value differs from the stored last value, never twice
in a row on an unchanged value, and the first successful sample after
start (stored value = the `None` sentinel) always dispatches when a
listener is registered. (With several volume-threshold listeners the
shared `last_vol_state` breaks the no-double-dispatch property, see the
counterexample.) -/
theorem c1_edge_detection
    (subsB subsN subsM : List Subscription) (sub : Subscription)
    (v : Int × Bool) (ifs : List Bool) (vol : Int) (m : Bool)
    (lastB : Option (Int × Bool)) (lastN lastV lastM lv : Option Bool)
    (hB : subsB ≠ []) (hN : subsN ≠ []) (hM : subsM ≠ []) :
    ((lastB = some v → (batteryBlock subsB (some v) lastB).events = [])
      ∧ (batteryBlock subsB (some v) (batteryBlock subsB (some v) lastB).last).events = []
      ∧ (batteryBlock subsB (some v) none).events ≠ [])
    ∧ ((lastN = some (ifs.any id) → (networkBlock subsN (some ifs) lastN).events = [])
      ∧ (networkBlock subsN (some ifs) (networkBlock subsN (some ifs) lastN).last).events = []
      ∧ (networkBlock subsN (some ifs) none).events ≠ [])
    ∧ ((lastM = some m → (volumeBlock [] subsM none (some m) lv lastM).events = [])
      ∧ (volumeBlock [] subsM none (some m) lv
          (volumeBlock [] subsM none (some m) lv lastM).lastMute).events = []
      ∧ (volumeBlock [] subsM none (some m) lv none).events ≠ [])
    ∧ ((lastV = some (decide (sub.params.threshold.getD 50 ≤ vol)) →
          (volThreshLoop [sub] vol lastV).2.1 = [])
      ∧ (volThreshLoop [sub] vol (volThreshLoop [sub] vol lastV).1).2.1 = []
      ∧ (volThreshLoop [sub] vol none).2.1 ≠ []) :=
  ⟨⟨fun h => batteryBlock_same subsB v lastB h,
    batteryBlock_no_double subsB v lastB,
    batteryBlock_first subsB v hB⟩,
   ⟨fun h => networkBlock_same subsN ifs lastN h,
    networkBlock_no_double subsN ifs lastN,
    networkBlock_first subsN ifs hN⟩,
   ⟨fun h => muteBlock_same subsM m lv lastM h,
    muteBlock_no_double subsM m lv lv lastM,
    muteBlock_first subsM m lv hM⟩,
   ⟨fun h => volThreshLoop_single_same sub vol lastV h,
    volThreshLoop_single_no_double sub vol lastV,
    volThreshLoop_single_first sub vol⟩⟩

/-- C1 (witness): the amended theorem applied at a concrete input; the
first battery sample after start dispatches. -/
theorem c1_witness : (batteryBlock [cbSub 0] (some (80, true)) none).events ≠ [] :=
  (c1_edge_detection [cbSub 0] [cbSub 1] [cbSub 2] (threshSub 3 50) (80, true)
    [true] 60 false none none none none none
    (by decide) (by decide) (by decide)).1.2.2

/-- C2 (counterexample): two `key_press` callbacks, the first of which
raises. The dispatch loop (`for cb, _ in self.listeners["key_press"]:
cb(key_str)`, no per-callback handler) invokes callback 0 and never
reaches callback 1, refuting "the remaining callbacks registered for that
category in the same dispatch still run". -/
theorem c2_counterexample :
    (onPress raisingPressListeners (∅ : Finset String) "a").2.1
        = [Event.keyPress 0 "a"]
    ∧ Event.keyPress 1 "a" ∉ (onPress raisingPressListeners (∅ : Finset String) "a").2.1 := by
  decide

/-- C2 (amended): a raising callback ends the dispatch loop for its
category: exactly the callbacks up to and including the first raiser are
invoked. In the monitor loop the exception is caught at the enclosing
per-signal block (so the other signal blocks of the iteration, composed
below, still run, and the already-performed state update survives: for
battery the stored value is updated before the dispatch loop), while in
the keyboard path nothing catches it. -/
theorem c2_callback_failure
    (subs : List Subscription) (mk : Subscription → Event)
    (v : Int × Bool) (last : Option (Int × Bool)) (ls : Listeners)
    (st : SignalState) (smp : Sample)
    (h1 : subs ≠ []) (h2 : last ≠ some v) :
    runCbs subs mk = ((upToRaise subs).map mk, subs.any (fun s => s.raises))
    ∧ (batteryBlock subs (some v) last).last = some v
    ∧ (monitorIter ls st smp).events
        = (batteryBlock (getCat ls "battery") smp.batt st.lastBattery).events
          ++ (networkBlock (getCat ls "network") smp.netIfaces st.lastNet).events
          ++ (volumeBlock (getCat ls "volume_threshold") (getCat ls "volume_mute")
                smp.vol smp.muted st.lastVolState st.lastMuteState).events :=
  ⟨runCbs_eq subs mk, batteryBlock_updates subs v last h1 h2, rfl⟩

/-- C2 (witness): the amended theorem applied at a concrete input; the
battery state is updated even though its first callback raises. -/
theorem c2_witness :
    (batteryBlock [raiseSub 0, cbSub 1] (some (80, true)) none).last = some (80, true) :=
  (c2_callback_failure [raiseSub 0, cbSub 1] (fun s => Event.batteryEv s.cb 80 true)
    (80, true) none initListeners initSignalState failedSample
    (by decide) (by decide)).2.1

/-- C3 (counterexample): one battery listener; a session dispatching
(80, true), then `stop()`/`start()`, then a session sampling the identical
(80, true). The restarted monitor re-fires the very value last dispatched
before `stop()`, because the `last_*` values are locals of `monitor()`
and every `start()` spawns a fresh `monitor()`. This refutes "the
last-value memory of the edge detectors persists across a restart". -/
theorem c3_counterexample :
    runSessions oneBatteryListeners [[battSample (80, true)], [battSample (80, true)]]
      = [[[Event.batteryEv 0 80 true]], [[Event.batteryEv 0 80 true]]] := by decide

/-- C3 (amended): `stop()` followed by `start()` resets every stored
signal state to the `None` sentinel (the last values live in locals of
the monitor thread body, re-created by each `start()`), so both sessions
of a restart pair compute from `initSignalState` independently, and a
first post-restart sample — identical or not to the value last
dispatched before `stop()` — always re-fires when a battery listener is
registered. -/
theorem c3_restart_resets (ls : Listeners) (v : Int × Bool)
    (hb : getCat ls "battery" ≠ []) :
    runSessions ls [[battSample v], [battSample v]]
      = [[(monitorIter ls initSignalState (battSample v)).events],
         [(monitorIter ls initSignalState (battSample v)).events]]
    ∧ (monitorIter ls initSignalState (battSample v)).events ≠ [] := by
  constructor
  · rfl
  · have hn := networkBlock_none (getCat ls "network") none
    have hv := volumeBlock_none (getCat ls "volume_threshold") (getCat ls "volume_mute")
      none none
    have hb2 := batteryBlock_first (getCat ls "battery") v hb
    simpa [monitorIter, battSample, initSignalState, hn.2, hv.2.2] using hb2

/-- C3 (witness): the amended theorem applied at a concrete input. -/
theorem c3_witness :
    (monitorIter oneBatteryListeners initSignalState (battSample (80, true))).events ≠ [] :=
  (c3_restart_resets oneBatteryListeners (80, true) (by decide)).2

/-- C7 (counterexample): when the pressed token is already held (key
auto-repeat delivers a second press without a release), a press of "a"
followed by its matching release yields the empty set, not the starting
set `{"a"}`: the universally quantified press/release round-trip claim
fails. -/
theorem c7_counterexample :
    (onRelease initListeners (onPress initListeners (insert "a" ∅) "a").1 "a").1
        = (∅ : Finset String)
    ∧ (∅ : Finset String) ≠ insert "a" (∅ : Finset String) := by decide

/-- C7 (amended): for every starting pressed-key set NOT already
containing the token, a press of the token followed by its matching
release restores the starting set (`add` then `discard`). -/
theorem c7_press_release (ls : Listeners) (keys : Finset String) (t : String)
    (h : t ∉ keys) :
    (onRelease ls (onPress ls keys t).1 t).1 = keys := by
  simp [onRelease, onPress_fst, Finset.erase_insert h]

/-- C7 (witness): the amended theorem applied at a concrete input. -/
theorem c7_witness :
    (onRelease initListeners (onPress initListeners (∅ : Finset String) "a").1 "a").1
      = (∅ : Finset String) :=
  c7_press_release initListeners ∅ "a" (by decide)

/-- C8 (confirmed): a failed external query (a `none` sample: the query
raised or returned unavailable) produces no dispatch for that signal,
leaves its stored last value untouched, and the loop goes on: a cycle
whose queries all fail contributes an empty event list and passes the
state through unchanged, so the next successful sample is compared
against the pre-failure state. -/
theorem c8_failure_isolation :
    (∀ subs last, (batteryBlock subs none last).last = last
        ∧ (batteryBlock subs none last).events = [])
    ∧ (∀ subs last, (networkBlock subs none last).last = last
        ∧ (networkBlock subs none last).events = [])
    ∧ (∀ ts ms lv lm, (volumeBlock ts ms none none lv lm).lastVol = lv
        ∧ (volumeBlock ts ms none none lv lm).lastMute = lm
        ∧ (volumeBlock ts ms none none lv lm).events = [])
    ∧ (∀ ls st rest, monitorLoop ls st (failedSample :: rest)
        = ((monitorLoop ls st rest).1, [] :: (monitorLoop ls st rest).2)) := by
  refine ⟨batteryBlock_none, networkBlock_none, volumeBlock_none, ?_⟩
  intro ls st rest
  have h := monitorIter_failed ls st
  simp [monitorLoop, h.1, h.2]

/-- C10 (confirmed): releasing a token absent from the pressed set is
total (`set.discard` never raises; the model is a total function), leaves
the pressed set unchanged, and still dispatches the `key_release`
callbacks with that token. -/
theorem c10_release_unknown_token (ls : Listeners) (keys : Finset String)
    (t : String) (h : t ∉ keys) :
    (onRelease ls keys t).1 = keys
    ∧ ((∀ s ∈ getCat ls "key_release", s.raises = false) →
        (onRelease ls keys t).2.1
          = (getCat ls "key_release").map (fun s => Event.keyRelease s.cb t)) := by
  constructor
  · simp [onRelease, Finset.erase_eq_of_not_mem h]
  · intro hr
    simp [onRelease, runCbs_noRaise _ _ hr]

/-- C10 (witness): the theorem applied at a concrete input. -/
theorem c10_witness :
    (onRelease releaseListeners (∅ : Finset String) "a").1 = (∅ : Finset String) :=
  (c10_release_unknown_token releaseListeners ∅ "a" (by decide)).1

/-- C4 (counterexample): the crossed-threshold boolean is NOT computed
from the first registered listener's threshold only. With two listeners
both at threshold 50 and volume 80, the code fires only listener 0 while
the claim's semantics (`specVolThreshStep`) fires both; with thresholds
30 and 70 and volume 50, the stored boolean after the cycle is
`50 >= 70 = false` (the second listener's own threshold), not the first
listener's `50 >= 30 = true`. -/
theorem c4_counterexample :
    (volThreshLoop [threshSub 0 50, threshSub 1 50] 80 none).2.1
        = [Event.volThreshold 0 80]
    ∧ (specVolThreshStep [threshSub 0 50, threshSub 1 50] 80 none).2
        = [Event.volThreshold 0 80, Event.volThreshold 1 80]
    ∧ (volThreshLoop [threshSub 0 30, threshSub 1 70] 50 none).1 = some false
    ∧ (specVolThreshStep [threshSub 0 30, threshSub 1 70] 50 none).1 = some true := by
  decide

/-- C4 (amended): each `volume_threshold` listener's edge check uses that
listener's OWN threshold (default 50) against the single shared stored
boolean, overwriting it whenever the listener fires; every dispatched
callback receives the actual numeric volume. With exactly one registered
listener this coincides with the claim's first-listener semantics
(`specVolThreshStep`). -/
theorem c4_per_listener_threshold
    (subs rest : List Subscription) (s : Subscription)
    (c : Nat) (r : Bool) (vol : Int) (last : Option Bool)
    (e : Event) (he : e ∈ (volThreshLoop subs vol last).2.1) :
    (∃ c2, e = Event.volThreshold c2 vol)
    ∧ volThreshLoop [⟨c, r, ⟨none, none⟩⟩] vol last
        = volThreshLoop [⟨c, r, ⟨none, some 50⟩⟩] vol last
    ∧ (last ≠ some (decide (s.params.threshold.getD 50 ≤ vol)) →
        (volThreshLoop (s :: rest) vol last).2.1.head?
          = some (Event.volThreshold s.cb vol))
    ∧ (last = some (decide (s.params.threshold.getD 50 ≤ vol)) →
        volThreshLoop (s :: rest) vol last = volThreshLoop rest vol last)
    ∧ (volThreshLoop [s] vol last).1 = (specVolThreshStep [s] vol last).1
    ∧ (volThreshLoop [s] vol last).2.1 = (specVolThreshStep [s] vol last).2 := by
  refine ⟨volThreshLoop_mem subs vol last e he, rfl, ?_, ?_, ?_, ?_⟩
  · intro h
    by_cases hr : s.raises = true <;> simp [volThreshLoop, h, hr]
  · intro h
    simp [volThreshLoop, h]
  · by_cases h : last = some (decide (s.params.threshold.getD 50 ≤ vol))
    · simp [volThreshLoop, specVolThreshStep, h]
    · by_cases hr : s.raises = true <;>
        simp [volThreshLoop, specVolThreshStep, h, hr]
  · by_cases h : last = some (decide (s.params.threshold.getD 50 ≤ vol))
    · simp [volThreshLoop, specVolThreshStep, h]
    · by_cases hr : s.raises = true <;>
        simp [volThreshLoop, specVolThreshStep, h, hr]

/-- C4 (witness): the amended theorem applied at a concrete input. -/
theorem c4_witness :
    ∃ c2, Event.volThreshold 0 80 = Event.volThreshold c2 80 :=
  (c4_per_listener_threshold [threshSub 0 50] [] (threshSub 0 50) 0 false 80 none
    (Event.volThreshold 0 80) (by decide)).1

/-- C5 (confirmed): on a key press the pressed set is extended first;
then a `key_combo` subscription fires exactly when its combo is non-empty
and its token set is a subset of the pressed keys at that instant (so it
re-fires on an unrelated press while the combo keys stay held, the check
depending only on the current snapshot), and a subscription with an empty
or absent combo never fires. Stated for dispatches in which no callback
raises. -/
theorem c5_combo_matching (ls : Listeners) (keys : Finset String) (k : String)
    (h1 : ∀ s ∈ getCat ls "key_press", s.raises = false)
    (h2 : ∀ s ∈ getCat ls "key_combo", s.raises = false) :
    onPress ls keys k
      = (insert k keys,
         (getCat ls "key_press").map (fun s => Event.keyPress s.cb k)
           ++ ((getCat ls "key_combo").filter (comboFires (insert k keys))).map
                (fun s => Event.keyCombo s.cb (comboOf s)),
         false)
    ∧ (∀ s : Subscription, comboFires (insert k keys) s = true
         ↔ comboOf s ≠ [] ∧ (comboOf s).toFinset ⊆ insert k keys)
    ∧ (∀ s : Subscription, comboOf s = [] → comboFires (insert k keys) s = false) := by
  refine ⟨?_, ?_, ?_⟩
  · simp [onPress, runCbs_noRaise _ _ h1, comboLoop_noRaise _ _ h2]
  · intro s
    simp [comboFires, List.isEmpty_iff]
  · intro s h
    simp [comboFires, h]

/-- C5 (witness): the theorem applied at a concrete input: with "ctrl"
held and "c" pressed, the registered ["ctrl", "c"] combo fires. -/
theorem c5_witness :
    (onPress comboListeners (insert "ctrl" ∅) "c").2.1
      = [Event.keyCombo 0 ["ctrl", "c"]] := by
  rw [(c5_combo_matching comboListeners (insert "ctrl" ∅) "c"
    (by decide) (by decide)).1]
  decide

/-- C6 (confirmed): registration against a registry whose keys are the
fixed ten categories fails with a `ValueError` ("Unknown event type")
for any other string and leaves the registry unreachable by the caller
(unchanged); for a known category it appends the subscription at the end
of that category's list (preserving registration order, no
de-duplication), keeps the key set intact, and leaves every other
category's list unchanged. -/
theorem c6_register_validation (ls : Listeners) (e : String) (s : Subscription)
    (hkeys : ls.map Prod.fst = eventTypes) :
    (e ∉ eventTypes → register ls e s = Except.error ("Unknown event type: " ++ e))
    ∧ (e ∈ eventTypes →
        register ls e s
            = Except.ok (ls.map (fun p => if p.1 = e then (p.1, p.2 ++ [s]) else p))
        ∧ (ls.map (fun p => if p.1 = e then (p.1, p.2 ++ [s]) else p)).map Prod.fst
            = eventTypes
        ∧ getCat (ls.map (fun p => if p.1 = e then (p.1, p.2 ++ [s]) else p)) e
            = getCat ls e ++ [s]
        ∧ ∀ c, c ≠ e →
            getCat (ls.map (fun p => if p.1 = e then (p.1, p.2 ++ [s]) else p)) c
              = getCat ls c) := by
  constructor
  · intro h
    simp [register, hkeys, h]
  · intro h
    refine ⟨by simp [register, hkeys, h], ?_, ?_, ?_⟩
    · rw [keys_update, hkeys]
    · exact getCat_update_eq ls e s (by rw [hkeys]; exact h)
    · intro c hc
      exact getCat_update_ne ls e c s hc

/-- C6 (witness): the theorem applied at the spec's own scenario,
`register("bogus", cb, dict())` on the initial registry. -/
theorem c6_witness :
    register initListeners "bogus" (cbSub 0)
      = Except.error ("Unknown event type: " ++ "bogus") :=
  (c6_register_validation initListeners "bogus" (cbSub 0) (by decide)).1 (by decide)

/-- C9 (counterexample): sampling for a signal is NOT always skipped when
that signal has no listener: with no `volume_threshold` listener but one
`volume_mute` listener, the iteration still performs the shared
`_get_system_volume()` query that is the volume-threshold signal's raw
sample. -/
theorem c9_counterexample :
    getCat muteOnlyListeners "volume_threshold" = []
    ∧ (monitorIter muteOnlyListeners initSignalState
        ⟨none, none, some 30, some false⟩).volSampled = true := by decide

/-- C9 (amended): callbacks for a category never fire while its listener
list is empty (an empty battery/network category also skips its sampling
entirely, and the volume query is skipped exactly when BOTH volume
categories are empty); with no `volume_threshold` listener every volume
event is a mute event, and with no `volume_mute` listener no mute event
is dispatched — but the shared volume sample is still taken whenever the
sibling volume category has a listener. -/
theorem c9_no_listener_no_fire :
    (∀ smp last, batteryBlock [] smp last = ⟨last, [], false⟩)
    ∧ (∀ smp last, networkBlock [] smp last = ⟨last, [], false⟩)
    ∧ (∀ vo mo lv lm, volumeBlock [] [] vo mo lv lm = ⟨lv, lm, [], false⟩)
    ∧ (∀ ts ms vo mo lv lm, (volumeBlock ts ms vo mo lv lm).sampled
        = !(ts.isEmpty && ms.isEmpty))
    ∧ (∀ ms vo mo lv lm,
        ((volumeBlock [] ms vo mo lv lm).events).all isVolMuteEv = true)
    ∧ (∀ ts vo mo lv lm,
        ((volumeBlock ts [] vo mo lv lm).events).all (fun e => !isVolMuteEv e) = true) := by
  refine ⟨?_, ?_, ?_, ?_, ?_, ?_⟩
  · intro smp last
    rfl
  · intro smp last
    rfl
  · intro vo mo lv lm
    cases vo <;> cases mo <;> rfl
  · intro ts ms vo mo lv lm
    by_cases hg : (ts.isEmpty && ms.isEmpty) = true
    · simp [volumeBlock, hg]
    · cases vo with
      | none =>
        cases mo with
        | none => simp [volumeBlock, hg]
        | some m =>
          by_cases hm : lm = some m <;> simp [volumeBlock, hg, hm]
      | some v =>
        by_cases ht : (volThreshLoop ts v lv).2.2 = true
        · simp [volumeBlock, hg, ht]
        · cases mo with
          | none => simp [volumeBlock, hg, ht]
          | some m =>
            by_cases hm : lm = some m <;> simp [volumeBlock, hg, ht, hm]
  · intro ms vo mo lv lm
    by_cases hg : ms.isEmpty = true
    · cases vo <;> cases mo <;> simp [volumeBlock, hg]
    · have htr : (match vo with
          | none => (lv, ([] : List Event), false)
          | some v => volThreshLoop [] v lv) = (lv, [], false) := by
        cases vo <;> rfl
      cases mo with
      | none => simp [volumeBlock, hg, htr]
      | some m =>
        by_cases hm : lm = some m
        · simp [volumeBlock, hg, htr, hm]
        · simp [volumeBlock, hg, htr, hm]
          exact List.all_eq_true.mp
            (runCbs_all ms (fun s => Event.volMute s.cb m) isVolMuteEv (fun s => rfl))
  · intro ts vo mo lv lm
    by_cases hg : ts.isEmpty = true
    · cases vo <;> cases mo <;> simp [volumeBlock, hg]
    · cases vo with
      | none =>
        cases mo with
        | none => simp [volumeBlock, hg]
        | some m =>
          by_cases hm : lm = some m <;> simp [volumeBlock, hg, hm, runCbs]
      | some v =>
        by_cases ht : (volThreshLoop ts v lv).2.2 = true
        · simp [volumeBlock, hg, ht, volThreshLoop_not_mute]
        · cases mo with
          | none => simp [volumeBlock, hg, ht, volThreshLoop_not_mute]
          | some m =>
            by_cases hm : lm = some m <;>
              simp [volumeBlock, hg, ht, hm, volThreshLoop_not_mute, runCbs]

end KeyNet
